import Mathlib

/-!
Verification of the EdIntelligence school-research assistant.

Shallow embedding of the Python sources:
  models_v2.py                    (Contact, FinancialData, School)
  data_loader.py                  (DataLoader merge pipeline and coercion helpers)
  school_intelligence_service.py  (SimpleCache, SchoolIntelligenceService)

Modelling conventions:
  Python float values are modelled by the type PyFloat below: an exact
  rational for finite values, plus nan and signed infinity.  Finite values
  are kept exact (no binary rounding); decimal-to-float overflow to
  infinity is modelled at the IEEE double overflow threshold, because the
  code paths under verification distinguish finite/nan/infinite results.
  Python exceptions that escape a function are modelled with Except.
  CSV rows are association lists from column name to cell string.
-/

attribute [local semireducible] Rat.add Rat.mul Rat.sub Rat.inv Rat.ofScientific

instance {e a : Type} [DecidableEq e] [DecidableEq a] : DecidableEq (Except e a) := fun x y =>
  match x, y with
  | .ok u, .ok v => decidable_of_iff (u = v) (by simp)
  | .error u, .error v => decidable_of_iff (u = v) (by simp)
  | .ok _, .error _ => isFalse (by simp)
  | .error _, .ok _ => isFalse (by simp)

/-- Characters stripped by Python str.strip and by float parsing. -/
def pySpace (c : Char) : Bool :=
  c == ' ' || c == '\t' || c == '\n' || c == '\r' ||
  c.toNat == 11 || c.toNat == 12

/-- Remove leading and trailing whitespace from a character list. -/
def stripChars (cs : List Char) : List Char :=
  ((cs.dropWhile pySpace).reverse.dropWhile pySpace).reverse

/-- ASCII lowercasing of one character, as done by str.lower on ASCII input. -/
def lowerChar (c : Char) : Char :=
  if 65 ≤ c.toNat ∧ c.toNat ≤ 90 then Char.ofNat (c.toNat + 32) else c

/-- Lowercase a character list. -/
def lowerChars (cs : List Char) : List Char := cs.map lowerChar

/-- Model of Python str.strip on strings. -/
def pyStrip (s : String) : String := (stripChars s.data).asString

/-- Model of Python str.lower on strings (ASCII part). -/
def pyLower (s : String) : String := (lowerChars s.data).asString

/-- ASCII decimal digit test. -/
def digitB (c : Char) : Bool := 48 ≤ c.toNat && c.toNat ≤ 57

/-- All characters are decimal digits. -/
def allDigits (cs : List Char) : Bool := cs.all digitB

/-- Numeric value of a digit character. -/
def charVal (c : Char) : ℕ := c.toNat - 48

/-- Value of a most-significant-first digit string. -/
def natOfDigits (cs : List Char) : ℕ :=
  cs.foldl (fun a c => 10 * a + charVal c) 0

/-- Split a list at the first character satisfying p; the matching
character starts the second component. -/
def breakAt (p : Char → Bool) : List Char → List Char × List Char
  | [] => ([], [])
  | c :: t =>
    if p c then ([], c :: t)
    else
      let r := breakAt p t
      (c :: r.1, r.2)

/-- Values of Python floats: exact finite rational, nan, or infinity
(neg = true for negative infinity). -/
inductive PyFloat where
  | finite (q : ℚ)
  | nan
  | inf (neg : Bool)
deriving Repr, DecidableEq

set_option maxRecDepth 100000

/-- Smallest magnitude at which decimal-to-double conversion rounds to
infinity (half an ulp above the largest finite double). -/
def dblOverflow : ℚ := ((2 ^ 1024 - 2 ^ 970 : ℕ) : ℚ)

/-- Optional leading sign of a float literal; true means negative. -/
def signSplit : List Char → Bool × List Char
  | [] => (false, [])
  | c :: t =>
    if c = '+' then (false, t)
    else if c = '-' then (true, t)
    else (false, c :: t)

/-- Mantissa of a float literal: digits with an optional decimal point,
at least one digit overall.  Returns its exact rational value. -/
def parseMantissa (cs : List Char) : Option ℚ :=
  match breakAt (fun c => c == '.') cs with
  | (ip, []) =>
    if ip ≠ [] ∧ allDigits ip then some ((natOfDigits ip : ℕ) : ℚ) else none
  | (ip, _ :: fp) =>
    if allDigits ip ∧ allDigits fp ∧ (ip ≠ [] ∨ fp ≠ []) then
      some ((natOfDigits ip : ℚ) + (natOfDigits fp : ℚ) / 10 ^ fp.length)
    else none

/-- Exponent part of a float literal (after the e), a signed digit string. -/
def parseExpZ (cs : List Char) : Option ℤ :=
  let (neg, ds) := signSplit cs
  if ds ≠ [] ∧ allDigits ds then
    some (if neg then -(natOfDigits ds : ℤ) else (natOfDigits ds : ℤ))
  else none

/-- Unsigned numeric float literal: mantissa with optional exponent. -/
def parseNumeric (cs : List Char) : Option ℚ :=
  match breakAt (fun c => c == 'e' || c == 'E') cs with
  | (mant, []) => parseMantissa mant
  | (mant, _ :: es) =>
    match parseMantissa mant, parseExpZ es with
    | some mq, some e => some (mq * 10 ^ e)
    | _, _ => none

/-- Core of Python float(string) on an already-stripped character list:
optional sign, then a nan/inf spelling (case-insensitive) or a numeric
literal; decimal overflow rounds to infinity.  none models ValueError.
(Underscore digit grouping and non-ASCII digits are not modelled.) -/
def pyFloatCore (cs : List Char) : Option PyFloat :=
  let s := signSplit cs
  let low := lowerChars s.2
  if low = "nan".data then some .nan
  else if low = "inf".data ∨ low = "infinity".data then some (.inf s.1)
  else
    match parseNumeric s.2 with
    | none => none
    | some q0 =>
      let q : ℚ := if s.1 then -q0 else q0
      if dblOverflow ≤ |q| then some (.inf s.1) else some (.finite q)

/-- Model of Python float(string): strip whitespace, then parse. -/
def pyFloatChars (cs : List Char) : Option PyFloat := pyFloatCore (stripChars cs)

/-- Model of Python float(string) on Lean strings. -/
def pyFloatOf (s : String) : Option PyFloat := pyFloatChars s.data

/-- Truncation toward zero, as Python int() on a finite float. -/
def pyTrunc (q : ℚ) : ℤ := if q < 0 then ⌈q⌉ else ⌊q⌋

/-- Exceptions that escape the modelled helpers. -/
inductive PyErr where
  | overflowError
deriving Repr, DecidableEq

/-- Python int() applied to a float: truncates finite values; ValueError on
nan is caught by the callers modelled here, so only the uncaught
OverflowError on infinity is distinguished. -/
def pyIntOfFloat : PyFloat → Except PyErr (Option ℤ)
  | .finite q => .ok (some (pyTrunc q))
  | .nan => .ok none
  | .inf _ => .error .overflowError

/-- Character for a decimal digit value below ten. -/
def digitChar (d : ℕ) : Char :=
  match d with
  | 0 => '0' | 1 => '1' | 2 => '2' | 3 => '3' | 4 => '4'
  | 5 => '5' | 6 => '6' | 7 => '7' | 8 => '8' | _ => '9'

/-- Digit characters of m, most significant first; fuel bounds recursion
depth and any fuel at least m suffices. -/
def natCharsGo : ℕ → ℕ → List Char
  | 0, _ => []
  | fuel + 1, m =>
    if m = 0 then [] else natCharsGo fuel (m / 10) ++ [digitChar (m % 10)]

/-- Decimal digit characters of a natural number, most significant first;
str(0) is "0". -/
def natChars (m : ℕ) : List Char :=
  if m = 0 then ['0'] else natCharsGo m m

/-- Decimal character representation of an integer, as Python str(int). -/
def intChars (n : ℤ) : List Char :=
  if n < 0 then '-' :: natChars n.natAbs else natChars n.natAbs

/-- Python str(int) as a Lean string. -/
def intStr (n : ℤ) : String := (intChars n).asString

/-- DataLoader._clean_urn: normalize a raw URN cell.  Returns ok none when
the value is absent, empty or the exact text nan (case-insensitive);
str(int(float(urn))) when the value parses as a finite float; the stripped
text when float() or int() fails with a caught error; and raises
OverflowError (uncaught) when the value parses to an infinity. -/
def clean_urn : Option String → Except PyErr (Option String)
  | none => .ok none
  | some s =>
    if s = "" ∨ pyLower s = "nan" then .ok none
    else
      match pyFloatOf s with
      | some (.finite q) => .ok (some (intStr (pyTrunc q)))
      | some .nan => .ok (some (pyStrip s))
      | some (.inf _) => .error .overflowError
      | none => .ok (some (pyStrip s))

/-- DataLoader._safe_float: absent/empty/nan-text gives none; otherwise
float(value), with ValueError and TypeError caught.  float() applied to a
string or None raises nothing but ValueError and TypeError, so the Python
function always returns and is modelled without an error channel. -/
def safe_float : Option String → Option PyFloat
  | none => none
  | some s =>
    if s = "" ∨ pyLower s = "nan" then none
    else
      match pyFloatOf s with
      | some f => some f
      | none => none

/-- DataLoader._safe_int: absent/empty/nan-text gives none; otherwise
int(float(value)) with ValueError and TypeError caught; OverflowError from
int() on an infinite float is not caught and escapes. -/
def safe_int : Option String → Except PyErr (Option ℤ)
  | none => .ok none
  | some s =>
    if s = "" ∨ pyLower s = "nan" then .ok none
    else
      match pyFloatOf s with
      | some f => pyIntOfFloat f
      | none => .ok none

/-!  Record model (models_v2.py).  The last_updated wall-clock field of
School is omitted: it records real time and takes part in no logic. -/

/-- Roles of a school contact. -/
inductive ContactRole where
  | headteacher | deputy_head | assistant_head | business_manager | senco | unknown
deriving Repr, DecidableEq

/-- A school contact (pydantic model Contact). -/
structure Contact where
  full_name : String
  role : ContactRole := .unknown
  title : Option String := none
  first_name : Option String := none
  last_name : Option String := none
  email : Option String := none
  phone : Option String := none
  confidence_score : ℚ := 1
deriving Repr, DecidableEq

/-- True when the character list ends in the two characters ".0". -/
def endsDot0 (cs : List Char) : Bool :=
  match cs.reverse with
  | '0' :: '.' :: _ => true
  | _ => false

/-- Drop a trailing ".0" artifact (Python v[:-2] guarded by endswith). -/
def stripDot0Chars (cs : List Char) : List Char :=
  if endsDot0 cs then cs.dropLast.dropLast else cs

/-- Reformat v as "020 " + v[2:6] + " " + v[6:]. -/
def group20 (cs : List Char) : List Char :=
  '0' :: '2' :: '0' :: ' ' :: ((cs.drop 2).take 4 ++ (' ' :: cs.drop 6))

/-- Reformat v as "020 " + v[1:5] + " " + v[5:]. -/
def group2 (cs : List Char) : List Char :=
  '0' :: '2' :: '0' :: ' ' :: ((cs.drop 1).take 4 ++ (' ' :: cs.drop 5))

/-- True when the list starts with the two characters "20". -/
def starts20 (cs : List Char) : Bool :=
  match cs with
  | '2' :: '0' :: _ => true
  | _ => false

/-- True when the list starts with the character '2'. -/
def starts2 (cs : List Char) : Bool :=
  match cs with
  | '2' :: _ => true
  | _ => false

/-- Contact.clean_phone validator (models_v2.py): strip a trailing ".0",
then group a 10-character value starting with "20"; it has no branch for
values starting with "2" but not "20". -/
def Contact.clean_phone : Option String → Option String
  | none => none
  | some s =>
    let cs := stripDot0Chars s.data
    if starts20 cs ∧ cs.length = 10 then some (group20 cs).asString
    else some cs.asString

/-- DataLoader._clean_phone: strip whitespace, drop a trailing ".0", group
10-character values starting with "20" or with "2", and map an empty
result to None. -/
def loader_clean_phone : Option String → Option String
  | none => none
  | some s =>
    let t := stripDot0Chars (stripChars s.data)
    let t :=
      if starts20 t ∧ t.length = 10 then group20 t
      else if starts2 t ∧ t.length = 10 then group2 t
      else t
    if t = [] then none else some t.asString

/-- School.clean_phone validator (models_v2.py): only strips ".0". -/
def school_phone_validator : Option String → Option String
  | none => none
  | some s => some (stripDot0Chars s.data).asString

/-- School financial data (pydantic model FinancialData).  The two legacy
free-text fields are carried for completeness. -/
structure FinancialData where
  total_expenditure : Option PyFloat := none
  total_pupils : Option PyFloat := none
  teaching_staff_costs : Option PyFloat := none
  supply_teaching_costs : Option PyFloat := none
  educational_support_costs : Option PyFloat := none
  agency_supply_costs : Option PyFloat := none
  educational_consultancy_costs : Option PyFloat := none
  total_teaching_support_costs : Option PyFloat := none
  total_teaching_support_spend_per_pupil : Option String := none
  comparison_to_other_schools : Option String := none
deriving Repr, DecidableEq

/-- Python comparison f >= c between a float value and a finite constant:
nan compares false, +inf true, -inf false. -/
def pyGeC : PyFloat → ℚ → Bool
  | .finite q, c => decide (c ≤ q)
  | .nan, _ => false
  | .inf neg, _ => !neg

/-- FinancialData.get_priority_level: UNKNOWN when the total staffing
figure is absent, else HIGH at 500000 and above, MEDIUM at 200000 and
above, LOW otherwise. -/
def FinancialData.get_priority_level (fd : FinancialData) : String :=
  match fd.total_teaching_support_costs with
  | none => "UNKNOWN"
  | some spend =>
    if pyGeC spend 500000 then "HIGH"
    else if pyGeC spend 200000 then "MEDIUM"
    else "LOW"

/-- Python ordering on float values: nan is incomparable, -inf below all
other non-nan values, +inf above them. -/
def pyLt : PyFloat → PyFloat → Bool
  | .nan, _ => false
  | _, .nan => false
  | .finite a, .finite b => decide (a < b)
  | .finite _, .inf s => !s
  | .inf s, .finite _ => s
  | .inf s, .inf t => s && !t

/-- Rank of a priority tier, HIGH above MEDIUM above LOW above UNKNOWN. -/
def tierRank : String → ℕ
  | "HIGH" => 3
  | "MEDIUM" => 2
  | "LOW" => 1
  | _ => 0

/-- Ofsted inspection data (pydantic model OfstedData). -/
structure OfstedData where
  rating : Option String := none
  inspection_date : Option String := none
  report_url : Option String := none
  areas_for_improvement : List String := []
  key_strengths : List String := []
deriving Repr, DecidableEq

/-- A talking point (pydantic model ConversationStarter). -/
structure ConversationStarter where
  topic : String
  detail : String
  source : Option String := none
  relevance_score : ℚ := 8 / 10
deriving Repr, DecidableEq

/-- Complete school record (pydantic model School). -/
structure School where
  urn : String
  school_name : String
  la_name : Option String := none
  address_1 : Option String := none
  address_2 : Option String := none
  address_3 : Option String := none
  town : Option String := none
  county : Option String := none
  postcode : Option String := none
  school_type : Option String := none
  phase : Option String := none
  pupil_count : Option ℤ := none
  trust_code : Option String := none
  trust_name : Option String := none
  phone : Option String := none
  website : Option String := none
  headteacher : Option Contact := none
  contacts : List Contact := []
  financial : Option FinancialData := none
  ofsted : Option OfstedData := none
  conversation_starters : List ConversationStarter := []
  data_source : String := "csv"
deriving Repr, DecidableEq

/-- School.get_sales_priority.  A pydantic object with every field None is
still truthy in Python, so the UNKNOWN branch fires exactly when the
financial attribute is None, which the Option models. -/
def School.get_sales_priority (s : School) : String :=
  match s.financial with
  | none => "UNKNOWN"
  | some fd => fd.get_priority_level

/-!  Loader and merge (data_loader.py).  A CSV row is an association list
from column name to cell text; lookup takes the first binding, and rows
coming from csv.DictReader bind each key once. -/

/-- A loosely typed CSV row. -/
abbrev Row := List (String × String)

/-- Dictionary lookup row.get(key). -/
def Row.get (r : Row) (k : String) : Option String :=
  (r.find? (fun p => p.1 == k)).map (fun p => p.2)

/-- Python a or b on optional strings: keeps a when it is a non-empty
string, otherwise yields b. -/
def pyOr : Option String → Option String → Option String
  | some s, b => if s = "" then b else some s
  | none, b => b

/-- Python truthiness of an optional string. -/
def truthy : Option String → Bool
  | some s => s ≠ ""
  | none => false

/-- DataLoader._get_value: first candidate column whose value is present,
non-empty and not the text nan, stripped. -/
def get_value (row : Row) (keys : List String) : Option String :=
  keys.findSome? fun k =>
    match row.get k with
    | some v => if v ≠ "" ∧ pyLower v ≠ "nan" then some (pyStrip v) else none
    | none => none

/-- Build the FinancialData sub-object of a merged row, as in
DataLoader._merged_row_to_school: every field reads the financial row fin,
except that total_pupils falls back to the merged row's pupil_count when
fin carries no truthy TotalPupils value. -/
def build_financial (fin row : Row) : FinancialData where
  total_expenditure :=
    safe_float (pyOr (fin.get "TotalExpenditure") (fin.get "total_expenditure"))
  total_pupils :=
    safe_float (pyOr (fin.get "TotalPupils") (row.get "pupil_count"))
  teaching_staff_costs :=
    safe_float (pyOr (fin.get "TeachingStaffCosts") (fin.get "teaching_staff_costs"))
  supply_teaching_costs :=
    safe_float (pyOr (fin.get "SupplyTeachingStaffCosts") (fin.get "supply_teaching_costs"))
  educational_support_costs :=
    safe_float (pyOr (fin.get "EducationSupportStaffCosts") (fin.get "educational_support_costs"))
  agency_supply_costs :=
    safe_float (pyOr (fin.get "AgencySupplyTeachingStaffCosts") (fin.get "agency_supply_costs"))
  educational_consultancy_costs :=
    safe_float (pyOr (fin.get "EducationalConsultancyCosts") (fin.get "educational_consultancy_costs"))
  total_teaching_support_costs :=
    safe_float (pyOr (fin.get "TotalTeachingSupportStaffCosts") (fin.get "total_teaching_support_costs"))

/-- DataLoader._merged_row_to_school.  The finOpt argument models the
_financial entry the merge loop plants in the merged dictionary; when it
is absent the merged row itself is used.  The only fallible step is
_safe_int on the pupil count, whose OverflowError would escape. -/
def merged_row_to_school (row : Row) (finOpt : Option Row) (urn : String) :
    Except PyErr School :=
  match safe_int (pyOr (row.get "pupil_count") (row.get "TotalPupils")) with
  | .error e => .error e
  | .ok pupil_count =>
    let school_name :=
      (pyOr (get_value row ["school_name", "SchoolName", "school_name_gias"])
        (some ("School " ++ urn))).getD ""
    let la_name := get_value row ["la_name", "LAName", "la_name_gias"]
    let school_type := get_value row ["school_type", "SchoolType"]
    let phase := get_value row ["phase", "Phase"]
    let phone := loader_clean_phone (row.get "phone")
    let website := get_value row ["website"]
    let head_title := get_value row ["head_title"]
    let head_first := get_value row ["head_first_name"]
    let head_last := get_value row ["head_last_name"]
    let head_full := get_value row ["headteacher"]
    let headteacher : Option Contact :=
      if truthy head_full ∨ (truthy head_first ∧ truthy head_last) then
        some
          { full_name :=
              if truthy head_full then head_full.getD ""
              else pyStrip ((head_title.getD "") ++ " " ++ (head_first.getD "")
                ++ " " ++ (head_last.getD ""))
            role := .headteacher
            title := head_title
            first_name := head_first
            last_name := head_last
            phone := Contact.clean_phone phone
            confidence_score := 1 }
      else none
    let fin := finOpt.getD row
    .ok
      { urn := urn
        school_name := school_name
        la_name := la_name
        school_type := school_type
        phase := phase
        address_1 := get_value row ["address_1"]
        address_2 := get_value row ["address_2"]
        address_3 := get_value row ["address_3"]
        town := get_value row ["town"]
        county := get_value row ["county"]
        postcode := get_value row ["postcode"]
        phone := school_phone_validator phone
        website := website
        trust_code := get_value row ["trust_code"]
        trust_name := get_value row ["trust_name"]
        pupil_count := pupil_count
        headteacher := headteacher
        contacts := match headteacher with | some h => [h] | none => []
        financial := some (build_financial fin row)
        data_source := "csv_merged" }

/-- The dictionary merge {**fin, **gias} observed through lookup: bindings
of the contact row shadow bindings of the financial row. -/
def mergeRows (fin gias : Row) : Row := gias ++ fin

/-- One iteration of the merge loop of DataLoader._load_and_merge_csvs for
a URN: merge the two rows (either may be absent), plant the financial row
as the _financial entry when it is non-empty, and build the School. -/
def load_merge_one (finRow giasRow : Option Row) (urn : String) :
    Except PyErr School :=
  let gias := giasRow.getD []
  let fin := finRow.getD []
  merged_row_to_school (mergeRows fin gias)
    (if fin.isEmpty then none else some fin) urn

/-!  Cache and orchestrator (school_intelligence_service.py).  Time is
measured in hours as an exact rational.  The on-disk cache is an
association list from URN to entry; writing replaces the entry for the
key, as overwriting the JSON file does.  Starters are cached as their
field dictionaries and rebuilt with the same four fields on read, so a
round trip through the cache is the identity on the record. -/

/-- Configured cache switch (config_v2.ENABLE_CACHE). -/
def ENABLE_CACHE : Bool := true

/-- Configured time-to-live in hours (config_v2.CACHE_TTL_HOURS). -/
def CACHE_TTL_HOURS : ℚ := 24

/-- One cached file: write timestamp plus starter list. -/
structure CacheEntry where
  cached_at : ℚ
  starters : List ConversationStarter
deriving Repr, DecidableEq

/-- The cache directory contents. -/
abbrev CacheStore := List (String × CacheEntry)

/-- Lookup of the cache file for a URN. -/
def CacheStore.lookup (store : CacheStore) (urn : String) : Option CacheEntry :=
  (store.find? (fun p => p.1 == urn)).map (fun p => p.2)

/-- SimpleCache.get: miss when disabled, absent, or when the entry is
older than the time-to-live (strictly, now - cached_at > ttl). -/
def SimpleCache.get (enabled : Bool) (ttl : ℚ) (store : CacheStore)
    (now : ℚ) (urn : String) : Option (List ConversationStarter) :=
  if !enabled then none
  else
    match store.lookup urn with
    | none => none
    | some e => if ttl < now - e.cached_at then none else some e.starters

/-- SimpleCache.set: no-op reporting failure when disabled, otherwise
store the list under the current timestamp, replacing any prior entry. -/
def SimpleCache.set (enabled : Bool) (store : CacheStore) (now : ℚ)
    (urn : String) (starters : List ConversationStarter) :
    Bool × CacheStore :=
  if !enabled then (false, store)
  else (true, (urn, ⟨now, starters⟩) :: store.filter (fun p => p.1 ≠ urn))

/-- Result of one ofsted_chain.analyze call: an escaped exception, a result
dictionary whose error field is set (or a falsy result), or a success with
rating, date, url, improvement descriptions and talking points. -/
inductive OfstedCall where
  | raises
  | errorRes (msg : String)
  | ok (rating inspection_date report_url : Option String)
      (improvements : List String) (starters : List ConversationStarter)
deriving Repr, DecidableEq

/-- Result of one conversation_chain.generate call for a given requested
count: an escaped exception or a starter list. -/
inductive FinCall where
  | raises
  | ok (starters : List ConversationStarter)
deriving Repr, DecidableEq

/-- Outcome of one orchestrator invocation: the returned value (none for
an unknown school), the cache store afterwards, how many inspection calls
were made, and the count argument of each financial-generator call. -/
structure OrchOutcome where
  result : Option School
  store : CacheStore
  ofstedCalls : ℕ
  finCalls : List ℕ
deriving Repr, DecidableEq

/-- Number of financial starters requested, from the 60/40 split in
get_school_intelligence_with_ofsted.  target_ofsted models the Python
expression int(num_starters * 0.6), whose double rounding agrees with
3 * n / 5 for every feasible count. -/
def financialNeeded (num_starters ofsted_count : ℕ) : ℕ :=
  let target_ofsted := 3 * num_starters / 5
  let target_financial := num_starters - target_ofsted
  max 2 (if ofsted_count < target_ofsted then num_starters - ofsted_count
         else target_financial)

/-- A starter is classified inspection-sourced when its source field is
truthy and starts with "http". -/
def isHttpSourced (s : ConversationStarter) : Bool :=
  match s.source with
  | some src =>
    match src.data with
    | 'h' :: 't' :: 't' :: 'p' :: _ => true
    | _ => false
  | none => false

/-- The balancing loop: one iteration per position below num_starters,
preferring the inspection pool on the first two of every three positions
while it lasts, otherwise drawing from whichever pool remains. -/
def balanceGo : List ConversationStarter → List ConversationStarter → ℕ → ℕ →
    List ConversationStarter
  | _, _, _, 0 => []
  | os, fs, i, fuel + 1 =>
    if i % 3 < 2 then
      match os with
      | o :: os' => o :: balanceGo os' fs (i + 1) fuel
      | [] =>
        match fs with
        | f :: fs' => f :: balanceGo [] fs' (i + 1) fuel
        | [] => balanceGo [] [] (i + 1) fuel
    else
      match fs with
      | f :: fs' => f :: balanceGo os fs' (i + 1) fuel
      | [] =>
        match os with
        | o :: os' => o :: balanceGo os' [] (i + 1) fuel
        | [] => balanceGo [] [] (i + 1) fuel

/-- Deduplication by exact topic text, keeping first occurrences. -/
def dedupByTopic : List ConversationStarter → List String →
    List ConversationStarter
  | [], _ => []
  | s :: rest, seen =>
    if s.topic ∈ seen then dedupByTopic rest seen
    else s :: dedupByTopic rest (s.topic :: seen)

/-- The balance-dedupe-truncate tail of the generation phase, as a single
function of the collected starters and the requested count. -/
def mixStarters (all : List ConversationStarter) (n : ℕ) :
    List ConversationStarter :=
  (dedupByTopic (balanceGo (all.filter isHttpSourced)
    (all.filter (fun s => !isHttpSourced s)) 0 n) []).take n

/-- Starters contributed by one inspection call outcome. -/
def ofstedStartersOf : OfstedCall → List ConversationStarter
  | .ok _ _ _ _ ss => ss
  | _ => []

/-- Ofsted record attached to the school by one inspection call outcome. -/
def ofstedResultOf (oe : OfstedCall) (old : Option OfstedData) :
    Option OfstedData :=
  match oe with
  | .ok r d u imps _ => some ⟨r, d, u, imps.take 5, []⟩
  | _ => old

/-- Generation phase of get_school_intelligence_with_ofsted, entered after
a cache miss: inspection call, financial call sized by the 60/40 rule,
balance, dedupe, truncate, cache write. -/
def generateWithOfsted (school : School) (store : CacheStore) (now : ℚ)
    (num_starters : ℕ) (include_ofsted ofsted_available : Bool)
    (feat_ofsted feat_starters cache_enabled : Bool)
    (ofstedEnv : OfstedCall) (finEnv : ℕ → FinCall) : OrchOutcome :=
  let step1 :=
    if include_ofsted && ofsted_available && feat_ofsted then
      match ofstedEnv with
      | .raises => (Option.none, ([] : List ConversationStarter), 1)
      | .errorRes _ => (Option.none, [], 1)
      | .ok rating date url improvements starters =>
        (some (⟨rating, date, url, improvements.take 5, []⟩ : OfstedData),
          starters, 1)
    else (none, [], 0)
  let ofsted_count := step1.2.1.length
  let needed := financialNeeded num_starters ofsted_count
  let step2 :=
    if feat_starters then
      match finEnv needed with
      | .raises => (([] : List ConversationStarter), [needed])
      | .ok starters => (starters, [needed])
    else ([], [])
  let all_starters := step1.2.1 ++ step2.1
  let ofsted_starters := all_starters.filter isHttpSourced
  let financial_starters := all_starters.filter (fun s => !isHttpSourced s)
  let balanced := balanceGo ofsted_starters financial_starters 0 num_starters
  let final := (dedupByTopic balanced []).take num_starters
  let store' := (SimpleCache.set cache_enabled store now school.urn final).2
  { result := some
      { school with
        ofsted := match step1.1 with | some o => some o | none => school.ofsted
        conversation_starters := final }
    store := store'
    ofstedCalls := step1.2.2
    finCalls := step2.2 }

/-- SchoolIntelligenceService.get_school_intelligence_with_ofsted.  The
school argument models data_loader.get_school_by_name; an unknown name
returns None with no generator call.  A cached non-empty list is returned
as-is (an empty cached list is falsy and triggers regeneration). -/
def get_school_intelligence_with_ofsted (school? : Option School)
    (store : CacheStore) (now : ℚ) (force_refresh : Bool) (num_starters : ℕ)
    (include_ofsted ofsted_available feat_ofsted feat_starters
      cache_enabled : Bool)
    (ofstedEnv : OfstedCall) (finEnv : ℕ → FinCall) : OrchOutcome :=
  match school? with
  | none => ⟨none, store, 0, []⟩
  | some school =>
    let cached :=
      if force_refresh then none
      else SimpleCache.get cache_enabled CACHE_TTL_HOURS store now school.urn
    match cached with
    | some (c :: cs) =>
      ⟨some { school with conversation_starters := c :: cs }, store, 0, []⟩
    | _ =>
      generateWithOfsted school store now num_starters include_ofsted
        ofsted_available feat_ofsted feat_starters cache_enabled ofstedEnv
        finEnv

/-- SchoolIntelligenceService.get_school_intelligence (plain variant): no
inspection step, no balancing; a generation failure returns the school
without starters and writes nothing to the cache. -/
def get_school_intelligence (school? : Option School) (store : CacheStore)
    (now : ℚ) (force_refresh : Bool) (num_starters : ℕ)
    (feat_starters cache_enabled : Bool) (finEnv : ℕ → FinCall) :
    OrchOutcome :=
  match school? with
  | none => ⟨none, store, 0, []⟩
  | some school =>
    if !feat_starters then ⟨some school, store, 0, []⟩
    else
      let cached :=
        if force_refresh then none
        else SimpleCache.get cache_enabled CACHE_TTL_HOURS store now school.urn
      match cached with
      | some (c :: cs) =>
        ⟨some { school with conversation_starters := c :: cs }, store, 0, []⟩
      | _ =>
        match finEnv num_starters with
        | .raises => ⟨some school, store, 0, [num_starters]⟩
        | .ok starters =>
          let store' :=
            (SimpleCache.set cache_enabled store now school.urn starters).2
          ⟨some { school with conversation_starters := starters }, store', 0,
            [num_starters]⟩

/-!  Theorems. -/

/-- Every priority label ranks at most HIGH. -/
theorem tierRank_le_three (s : String) : tierRank s ≤ 3 := by
  unfold tierRank
  split <;> omega

/-- Unfolding of the priority function on a present value. -/
theorem get_priority_level_some (fd : FinancialData) (z : PyFloat)
    (h : fd.total_teaching_support_costs = some z) :
    fd.get_priority_level =
      if pyGeC z 500000 then "HIGH"
      else if pyGeC z 200000 then "MEDIUM" else "LOW" := by
  unfold FinancialData.get_priority_level
  rw [h]

/-- Every priority label of a present value ranks at least LOW. -/
theorem tierRank_present_ge_one (z : PyFloat) :
    1 ≤ tierRank (if pyGeC z 500000 then "HIGH"
      else if pyGeC z 200000 then "MEDIUM" else "LOW") := by
  split_ifs <;> simp [tierRank]

/-- C1: the priority tier of FinancialData.get_priority_level is monotone
in the present total_teaching_support_costs value under the ordering
HIGH above MEDIUM above LOW, and the boundaries resolve as 500000 to HIGH,
200000 to MEDIUM, 199999.99 to LOW, and an absent value to UNKNOWN. -/
theorem C1_priority_monotone_and_boundaries :
    (∀ (fdx fdy : FinancialData) (x y : PyFloat),
      fdx.total_teaching_support_costs = some x →
      fdy.total_teaching_support_costs = some y →
      pyLt y x = true →
      tierRank fdy.get_priority_level ≤ tierRank fdx.get_priority_level) ∧
    FinancialData.get_priority_level
      { total_teaching_support_costs := some (.finite 500000) } = "HIGH" ∧
    FinancialData.get_priority_level
      { total_teaching_support_costs := some (.finite 200000) } = "MEDIUM" ∧
    FinancialData.get_priority_level
      { total_teaching_support_costs := some (.finite (19999999 / 100)) } = "LOW" ∧
    FinancialData.get_priority_level
      { total_teaching_support_costs := none } = "UNKNOWN" := by
  refine ⟨?_, by decide, by decide, by decide, rfl⟩
  intro fdx fdy x y hx hy hlt
  rw [get_priority_level_some fdx x hx, get_priority_level_some fdy y hy]
  cases x with
  | nan => cases y <;> simp [pyLt] at hlt
  | inf s =>
    cases s with
    | false =>
      have h1 : pyGeC (.inf false) 500000 = true := rfl
      rw [h1, if_pos rfl]
      exact tierRank_le_three _
    | true => cases y <;> simp [pyLt] at hlt
  | finite a =>
    cases y with
    | nan => simp [pyLt] at hlt
    | inf t =>
      simp only [pyLt] at hlt
      rw [hlt]
      have h1 : pyGeC (.inf true) 500000 = false := rfl
      have h2 : pyGeC (.inf true) 200000 = false := rfl
      rw [h1, h2]
      simp only [Bool.false_eq_true, if_false, tierRank]
      exact tierRank_present_ge_one (.finite a)
    | finite b =>
      simp only [pyLt, decide_eq_true_eq] at hlt
      simp only [pyGeC, decide_eq_true_eq]
      split_ifs with h1 h2 h3 h4 h5 h6 <;> simp [tierRank] <;> linarith

/-- Witness for C1 at 600000 against 100. -/
theorem C1_priority_monotone_witness :
    tierRank (FinancialData.get_priority_level
      { total_teaching_support_costs := some (.finite 100) }) ≤
    tierRank (FinancialData.get_priority_level
      { total_teaching_support_costs := some (.finite 600000) }) :=
  C1_priority_monotone_and_boundaries.1 _ _ (.finite 600000) (.finite 100)
    rfl rfl (by decide)

/-- C5: with the configured cache switch enabled, set followed by get at
the same instant returns exactly the stored starter list (same topic,
detail, source and relevance_score in order, which record equality
captures), and once the entry is older than the configured 24-hour
time-to-live, get misses. -/
theorem C5_cache_roundtrip_and_expiry :
    ∀ (store : CacheStore) (now now' : ℚ) (urn : String)
      (starters : List ConversationStarter),
      SimpleCache.get ENABLE_CACHE CACHE_TTL_HOURS
          (SimpleCache.set ENABLE_CACHE store now urn starters).2 now urn =
        some starters ∧
      (CACHE_TTL_HOURS < now' - now →
        SimpleCache.get ENABLE_CACHE CACHE_TTL_HOURS
            (SimpleCache.set ENABLE_CACHE store now urn starters).2 now' urn =
          none) := by
  intro store now now' urn starters
  constructor
  · simp [SimpleCache.get, SimpleCache.set, ENABLE_CACHE, CacheStore.lookup,
      CACHE_TTL_HOURS, List.find?]
  · intro h
    simp only [CACHE_TTL_HOURS] at h
    simp [SimpleCache.get, SimpleCache.set, ENABLE_CACHE, CacheStore.lookup,
      CACHE_TTL_HOURS, List.find?]
    linarith

/-- Witness for C5 at a concrete store, times 0 and 25, and a one-element
starter list. -/
theorem C5_cache_roundtrip_witness :
    SimpleCache.get ENABLE_CACHE CACHE_TTL_HOURS
        (SimpleCache.set ENABLE_CACHE [] 0 "100309"
          [{ topic := "t", detail := "d" }]).2 0 "100309" =
      some [{ topic := "t", detail := "d" }] ∧
    SimpleCache.get ENABLE_CACHE CACHE_TTL_HOURS
        (SimpleCache.set ENABLE_CACHE [] 0 "100309"
          [{ topic := "t", detail := "d" }]).2 25 "100309" = none := by
  have h := C5_cache_roundtrip_and_expiry [] 0 25 "100309"
    [{ topic := "t", detail := "d" }]
  exact ⟨h.1, h.2 (by norm_num [CACHE_TTL_HOURS])⟩

/-- C8: _safe_float returns on every string-or-absent input, but _safe_int
raises an uncaught OverflowError on text parsing to an infinite float,
such as "inf" or "1e400"; empty, absent and nan text give absent. -/
theorem C8_safe_int_overflow :
    safe_int (some "inf") = .error .overflowError ∧
    safe_int (some "1e400") = .error .overflowError ∧
    safe_float (some "inf") = some (.inf false) ∧
    safe_float (some "1e400") = some (.inf false) ∧
    safe_int (some "") = .ok none ∧
    safe_int (some "nan") = .ok none ∧
    safe_int none = .ok none ∧
    safe_float (some "") = none ∧
    safe_float (some "NaN") = none ∧
    safe_float none = none := by
  refine ⟨by decide, by decide, by decide, by decide, by decide, by decide,
    rfl, by decide, by decide, rfl⟩

/-- Counterexample to C9 as stated: a 10-digit value starting with "2" but
not with "20" is left unchanged by the Contact model validator (no
grouping), while the loader helper does reformat it. -/
theorem C9_counterexample_contact_phone :
    Contact.clean_phone (some "2123456789") = some "2123456789" ∧
    loader_clean_phone (some "2123456789") = some "020 1234 56789" ∧
    ("2123456789" : String) ≠ "020 1234 56789" := by
  refine ⟨by decide, by decide, by decide⟩

/-- Unfolding of the Contact phone validator on a present value. -/
theorem Contact.clean_phone_some (z : String) :
    Contact.clean_phone (some z) =
      if starts20 (stripDot0Chars z.data) ∧ (stripDot0Chars z.data).length = 10
      then some (group20 (stripDot0Chars z.data)).asString
      else some (stripDot0Chars z.data).asString := rfl

/-- A list not ending in ".0" is left alone by the ".0" stripper. -/
theorem stripDot0Chars_no (cs : List Char) (h : endsDot0 cs = false) :
    stripDot0Chars cs = cs := by
  unfold stripDot0Chars
  rw [h]
  simp

/-- Appending ".0" is undone by the ".0" stripper. -/
theorem stripDot0Chars_append (cs : List Char) :
    stripDot0Chars (cs ++ ['.', '0']) = cs := by
  have he : endsDot0 (cs ++ ['.', '0']) = true := by
    simp [endsDot0, List.reverse_append]
  unfold stripDot0Chars
  rw [he]
  simp only [if_true]
  rw [show (['.', '0'] : List Char) = ['.'] ++ ['0'] from rfl,
    ← List.append_assoc, List.dropLast_concat, List.dropLast_concat]

/-- C9 amended: Contact.clean_phone strips one trailing ".0" artifact,
groups a 10-character value starting with "20" as "020 XXXX XXXX", leaves
a value starting with "2" but not "20" unchanged, and maps "2012345678"
to "020 1234 5678". -/
theorem C9_contact_phone_amended :
    (∀ s : String, endsDot0 s.data = false →
      Contact.clean_phone (some (s ++ ".0")) = Contact.clean_phone (some s)) ∧
    (∀ t : List Char, t.length = 8 → endsDot0 ('2' :: '0' :: t) = false →
      Contact.clean_phone (some ('2' :: '0' :: t).asString) =
        some ('0' :: '2' :: '0' :: ' ' ::
          (t.take 4 ++ (' ' :: t.drop 4))).asString) ∧
    (∀ t : List Char, endsDot0 ('2' :: t) = false → starts20 ('2' :: t) = false →
      Contact.clean_phone (some ('2' :: t).asString) =
        some ('2' :: t).asString) ∧
    Contact.clean_phone (some "2012345678") = some "020 1234 5678" := by
  refine ⟨?_, ?_, ?_, by decide⟩
  · intro s h
    have hd : (s ++ ".0").data = s.data ++ ['.', '0'] := by
      simp [String.data_append]
    rw [Contact.clean_phone_some, Contact.clean_phone_some, hd,
      stripDot0Chars_append, stripDot0Chars_no s.data h]
  · intro t hlen hdot
    have hdata : (('2' :: '0' :: t).asString).data = '2' :: '0' :: t := rfl
    rw [Contact.clean_phone_some, hdata, stripDot0Chars_no _ hdot]
    have hcond : starts20 ('2' :: '0' :: t) = true ∧
        ('2' :: '0' :: t).length = 10 := ⟨rfl, by simp [hlen]⟩
    rw [if_pos hcond]
    simp [group20]
  · intro t hdot hs
    have hdata : (('2' :: t).asString).data = '2' :: t := rfl
    rw [Contact.clean_phone_some, hdata, stripDot0Chars_no _ hdot]
    rw [if_neg]
    intro hc
    rw [hs] at hc
    exact absurd hc.1 (by simp)

/-- Witness for the amended C9 at the digits 12345678 after "20". -/
theorem C9_contact_phone_amended_witness :
    Contact.clean_phone (some (('2' :: '0' :: "12345678".data).asString)) =
      some ('0' :: '2' :: '0' :: ' ' ::
        ("12345678".data.take 4 ++ (' ' :: "12345678".data.drop 4))).asString :=
  C9_contact_phone_amended.2.1 "12345678".data (by decide) (by decide)

/-- Counterexample to C7 as stated: _clean_urn maps " nan " to the value
"nan" (float parses it to nan, int() fails, the stripped text is
returned), but applying it again to "nan" hits the guard and yields no
value; likewise " " returns the value "" which then yields no value. -/
theorem C7_counterexample_clean_urn :
    clean_urn (some " nan ") = .ok (some "nan") ∧
    clean_urn (some "nan") = .ok none ∧
    clean_urn (some " ") = .ok (some "") ∧
    clean_urn (some "") = .ok none := by
  refine ⟨by decide, by decide, by decide, by decide⟩

/-- Counterexample to C2 as stated: with the same financial row, changing
only the contact row's pupil_count changes the built FinancialData, whose
total_pupils is read from the overridden merged map (the contact value
300) when the financial row lacks TotalPupils. -/
theorem C2_counterexample_financial_from_merged :
    (load_merge_one (some [("SchoolName", "B"), ("TotalExpenditure", "500")])
        (some [("school_name", "A"), ("pupil_count", "300")]) "100").map
        (fun s => s.financial) ≠
      (load_merge_one (some [("SchoolName", "B"), ("TotalExpenditure", "500")])
        (some [("school_name", "A"), ("pupil_count", "400")]) "100").map
        (fun s => s.financial) ∧
    (load_merge_one (some [("SchoolName", "B"), ("TotalExpenditure", "500")])
        (some [("school_name", "A"), ("pupil_count", "300")]) "100").map
        (fun s => s.financial.map (fun fd => fd.total_pupils)) =
      .ok (some (some (.finite 300))) := by
  refine ⟨by decide, by decide⟩

/-- Counterexample to C6 as stated: when the generator succeeds with an
empty starter list, the empty cached list is falsy on the second
invocation, so the financial generator is called twice in total. -/
theorem C6_counterexample_empty_generation :
    (let first := get_school_intelligence
        (some { urn := "100", school_name := "Oak" }) [] 0 false 5 true true
        (fun _ => .ok [])
     let second := get_school_intelligence
        (some { urn := "100", school_name := "Oak" }) first.store 0 false 5
        true true (fun _ => .ok [])
     first.finCalls.length + second.finCalls.length) = 2 := by decide

/-- Inversion of the row-to-school conversion: a successful build fixes
the financial sub-object and the school name. -/
theorem merged_row_to_school_fields (row : Row) (finOpt : Option Row)
    (urn : String) (s : School)
    (h : merged_row_to_school row finOpt urn = .ok s) :
    s.financial = some (build_financial (finOpt.getD row) row) ∧
    s.school_name =
      (pyOr (get_value row ["school_name", "SchoolName", "school_name_gias"])
        (some ("School " ++ urn))).getD "" := by
  unfold merged_row_to_school at h
  rcases hsi : safe_int (pyOr (row.get "pupil_count") (row.get "TotalPupils"))
    with e | pc
  · rw [hsi] at h
    exact absurd h (by simp)
  · rw [hsi] at h
    simp only [Except.ok.injEq] at h
    subst h
    exact ⟨rfl, rfl⟩

/-- The merge-loop iteration is the row conversion of the shadow-merged
row with the financial row planted when non-empty. -/
theorem load_merge_one_def (finRow giasRow : Option Row) (urn : String) :
    load_merge_one finRow giasRow urn =
      merged_row_to_school (mergeRows (finRow.getD []) (giasRow.getD []))
        (if (finRow.getD []).isEmpty then none else some (finRow.getD []))
        urn := rfl

/-- Unfolding of School.get_sales_priority on a present financial. -/
theorem get_sales_priority_some (s : School) (fd : FinancialData)
    (h : s.financial = some fd) :
    s.get_sales_priority = fd.get_priority_level := by
  unfold School.get_sales_priority
  rw [h]

/-- C10: every school built by the merge loader carries a FinancialData
object (never none), so the missing-financial branch of get_sales_priority
cannot fire on loader output, and the UNKNOWN tier appears exactly when
total_teaching_support_costs is absent. -/
theorem C10_loader_always_attaches_financial :
    ∀ (finRow giasRow : Option Row) (urn : String) (s : School),
      load_merge_one finRow giasRow urn = .ok s →
      ∃ fd, s.financial = some fd ∧
        s.get_sales_priority = fd.get_priority_level ∧
        (s.get_sales_priority = "UNKNOWN" ↔
          fd.total_teaching_support_costs = none) := by
  intro finRow giasRow urn s h
  rw [load_merge_one_def] at h
  obtain ⟨hfin, -⟩ := merged_row_to_school_fields _ _ _ _ h
  refine ⟨_, hfin, get_sales_priority_some s _ hfin, ?_⟩
  rw [get_sales_priority_some s _ hfin]
  constructor
  · intro hu
    by_contra hne
    rcases Option.ne_none_iff_exists'.mp hne with ⟨z, hz⟩
    rw [get_priority_level_some _ z hz] at hu
    revert hu
    split_ifs <;> decide
  · intro hn
    unfold FinancialData.get_priority_level
    rw [hn]

/-- Witness for C10 on a row pair with a financial row lacking the total
staffing column (priority UNKNOWN through the absent figure). -/
theorem C10_loader_financial_witness :
    ∃ fd,
      ((load_merge_one (some [("TotalExpenditure", "500")])
          (some [("school_name", "A")]) "7").toOption.getD
        { urn := "", school_name := "" }).financial = some fd ∧
      ((load_merge_one (some [("TotalExpenditure", "500")])
          (some [("school_name", "A")]) "7").toOption.getD
        { urn := "", school_name := "" }).get_sales_priority =
        fd.get_priority_level ∧
      (((load_merge_one (some [("TotalExpenditure", "500")])
          (some [("school_name", "A")]) "7").toOption.getD
        { urn := "", school_name := "" }).get_sales_priority = "UNKNOWN" ↔
        fd.total_teaching_support_costs = none) :=
  C10_loader_always_attaches_financial (some [("TotalExpenditure", "500")])
    (some [("school_name", "A")]) "7" _ (by decide)

/-- With an empty inspection pool the balancing loop takes financial
points in order, one per remaining position. -/
theorem balanceGo_nil_left (fs : List ConversationStarter) (i fuel : ℕ) :
    balanceGo [] fs i fuel = fs.take fuel := by
  induction fuel generalizing fs i with
  | zero => simp [balanceGo]
  | succ m ih =>
    cases fs with
    | nil => unfold balanceGo; split <;> simp [ih]
    | cons f ft => unfold balanceGo; split <;> simp [ih]

/-- Deduplication keeps a list whose topics are distinct and unseen. -/
theorem dedupByTopic_nodup (l : List ConversationStarter) (seen : List String)
    (h1 : (l.map (fun s => s.topic)).Nodup) (h2 : ∀ s ∈ l, s.topic ∉ seen) :
    dedupByTopic l seen = l := by
  induction l generalizing seen with
  | nil => rfl
  | cons s rest ih =>
    simp only [List.map_cons, List.nodup_cons] at h1
    unfold dedupByTopic
    rw [if_neg (h2 s (List.mem_cons_self s rest))]
    rw [ih (s.topic :: seen) h1.2]
    intro x hx
    simp only [List.mem_cons]
    push_neg
    refine ⟨?_, h2 x (List.mem_cons_of_mem s hx)⟩
    intro hxe
    exact h1.1 (hxe ▸ List.mem_map_of_mem (fun t => t.topic) hx)

/-- Without a cache entry for the school and without force_refresh, the
with-Ofsted orchestrator proceeds to generation. -/
theorem with_ofsted_cache_miss (school : School) (store : CacheStore)
    (now : ℚ) (n : ℕ) (b1 b2 b3 b4 b5 : Bool) (oe : OfstedCall)
    (fe : ℕ → FinCall) (h : store.lookup school.urn = none) :
    get_school_intelligence_with_ofsted (some school) store now false n
      b1 b2 b3 b4 b5 oe fe =
      generateWithOfsted school store now n b1 b2 b3 b4 b5 oe fe := by
  have hget : SimpleCache.get b5 CACHE_TTL_HOURS store now school.urn = none := by
    unfold SimpleCache.get
    rw [h]
    cases b5 <;> simp
  simp [get_school_intelligence_with_ofsted, hget]

/-- C4: on a cache miss with the inspection generator reporting an error
result and the financial generator succeeding with distinct-topic,
non-inspection-sourced points, the returned school carries
min(requested, N) talking points, none inspection-sourced; an unknown
school name is the only hard failure and returns an explicit null outcome
with no generator call. -/
theorem C4_graceful_on_inspection_error :
    (∀ (school : School) (store : CacheStore) (now : ℚ) (n : ℕ) (msg : String)
       (fins : List ConversationStarter),
      store.lookup school.urn = none →
      (fins.map (fun s => s.topic)).Nodup →
      (∀ s ∈ fins, isHttpSourced s = false) →
      ∃ s', (get_school_intelligence_with_ofsted (some school) store now false
          n true true true true true (.errorRes msg) (fun _ => .ok fins)).result
          = some s' ∧
        s'.conversation_starters.length = min n fins.length ∧
        ∀ s ∈ s'.conversation_starters, isHttpSourced s = false) ∧
    (∀ (store : CacheStore) (now : ℚ) (fr : Bool) (n : ℕ)
       (b1 b2 b3 b4 b5 : Bool) (oe : OfstedCall) (fe : ℕ → FinCall),
      get_school_intelligence_with_ofsted none store now fr n b1 b2 b3 b4 b5
        oe fe = ⟨none, store, 0, []⟩) := by
  constructor
  · intro school store now n msg fins hlk hnd hhttp
    rw [with_ofsted_cache_miss school store now n true true true true true
      (.errorRes msg) (fun _ => .ok fins) hlk]
    have h1 : fins.filter isHttpSourced = [] := by
      rw [List.filter_eq_nil_iff]
      intro a ha
      simp [hhttp a ha]
    have h2 : fins.filter (fun s => !isHttpSourced s) = fins := by
      rw [List.filter_eq_self]
      intro a ha
      simp [hhttp a ha]
    have h3 : dedupByTopic (fins.take n) [] = fins.take n := by
      refine dedupByTopic_nodup _ _ ?_ (by simp)
      rw [List.map_take]
      exact List.Nodup.sublist (List.take_sublist _ _) hnd
    have key : (generateWithOfsted school store now n true true true true true
        (.errorRes msg) (fun _ => .ok fins)).result =
        some { school with conversation_starters := fins.take n } := by
      unfold generateWithOfsted
      simp only [Bool.and_self, if_true, List.nil_append, h1, h2,
        balanceGo_nil_left, h3, List.take_take, Nat.min_self]
    refine ⟨_, key, ?_, ?_⟩
    · simp [List.length_take]
    · intro s hs
      exact hhttp s (List.take_subset n fins hs)
  · intro store now fr n b1 b2 b3 b4 b5 oe fe
    rfl

/-- Witness for C4: two points requested, inspection errors, financial
returns three non-http points. -/
theorem C4_graceful_witness :
    ∃ s', (get_school_intelligence_with_ofsted
        (some { urn := "100", school_name := "Oak" }) [] 0 false 2
        true true true true true (.errorRes "failed")
        (fun _ => .ok [{ topic := "a", detail := "d" },
          { topic := "b", detail := "d" }, { topic := "c", detail := "d" }])).result
        = some s' ∧
      s'.conversation_starters.length =
        min 2 ([{ topic := "a", detail := "d" },
          { topic := "b", detail := "d" },
          { topic := "c", detail := "d" }] : List ConversationStarter).length ∧
      ∀ s ∈ s'.conversation_starters, isHttpSourced s = false :=
  C4_graceful_on_inspection_error.1 { urn := "100", school_name := "Oak" }
    [] 0 2 "failed" _ (by decide) (by decide) (by decide)

/-- C3: the financial generator is asked for max(2, n - k) points when the
obtained inspection count k is below the 60 percent target int(0.6 * n),
and otherwise max(2, n - int(0.6 * n)); on a cache miss requesting 5
points with 2 inspection points obtained, the financial generator is
asked for 3, and when it returns 3 distinct-topic points the final list
has length 5 with the inspection points at positions 0 and 1 and the
financial points at positions 2 to 4. -/
theorem C3_sixty_forty_split :
    (∀ n k : ℕ, financialNeeded n k =
      if k < 3 * n / 5 then max 2 (n - k) else max 2 (n - 3 * n / 5)) ∧
    financialNeeded 5 2 = 3 ∧
    (∀ (school : School) (store : CacheStore) (now : ℚ)
       (o1 o2 f1 f2 f3 : ConversationStarter)
       (rating date url : Option String) (imps : List String)
       (fe : ℕ → FinCall),
      store.lookup school.urn = none →
      isHttpSourced o1 = true → isHttpSourced o2 = true →
      isHttpSourced f1 = false → isHttpSourced f2 = false →
      isHttpSourced f3 = false →
      ([o1, o2, f1, f2, f3].map (fun s => s.topic)).Nodup →
      fe 3 = .ok [f1, f2, f3] →
      (get_school_intelligence_with_ofsted (some school) store now false 5
          true true true true true (.ok rating date url imps [o1, o2])
          fe).finCalls = [3] ∧
      ∃ s', (get_school_intelligence_with_ofsted (some school) store now false
          5 true true true true true (.ok rating date url imps [o1, o2])
          fe).result = some s' ∧
        s'.conversation_starters = [o1, o2, f1, f2, f3]) := by
  refine ⟨?_, by decide, ?_⟩
  · intro n k
    by_cases h : k < 3 * n / 5 <;> simp [financialNeeded, h]
  · intro school store now o1 o2 f1 f2 f3 rating date url imps fe hlk
      ho1 ho2 hf1 hf2 hf3 hnd hfe
    rw [with_ofsted_cache_miss school store now 5 true true true true true
      (.ok rating date url imps [o1, o2]) fe hlk]
    have hneed : financialNeeded 5 ([o1, o2] : List ConversationStarter).length
        = 3 := by
      simp only [List.length_cons, List.length_nil]
      decide
    have hfilter1 :
        ([o1, o2, f1, f2, f3] : List ConversationStarter).filter isHttpSourced
          = [o1, o2] := by
      simp [List.filter, ho1, ho2, hf1, hf2, hf3]
    have hfilter2 :
        ([o1, o2, f1, f2, f3] : List ConversationStarter).filter
          (fun s => !isHttpSourced s) = [f1, f2, f3] := by
      simp [List.filter, ho1, ho2, hf1, hf2, hf3]
    have hbal : balanceGo [o1, o2] [f1, f2, f3] 0 5 = [o1, o2, f1, f2, f3] := by
      simp [balanceGo]
    have hded : dedupByTopic [o1, o2, f1, f2, f3] [] = [o1, o2, f1, f2, f3] :=
      dedupByTopic_nodup _ _ hnd (by simp)
    constructor
    · unfold generateWithOfsted
      simp only [Bool.and_self, if_true, hneed, hfe, List.cons_append,
        List.nil_append, hfilter1, hfilter2, hbal, hded]
    · refine ⟨{ school with
          ofsted := some ⟨rating, date, url, imps.take 5, []⟩
          conversation_starters := [o1, o2, f1, f2, f3] }, ?_, rfl⟩
      unfold generateWithOfsted
      simp only [Bool.and_self, if_true, hneed, hfe, List.cons_append,
        List.nil_append, hfilter1, hfilter2, hbal, hded]
      rfl

/-- Witness for C3 at concrete starters. -/
theorem C3_sixty_forty_witness :
    (get_school_intelligence_with_ofsted
        (some { urn := "100", school_name := "Oak" }) [] 0 false 5
        true true true true true
        (.ok (some "Good") none (some "http://r") []
          [{ topic := "o1", detail := "d", source := some "http://a" },
           { topic := "o2", detail := "d", source := some "http://b" }])
        (fun _ => .ok [{ topic := "f1", detail := "d" },
          { topic := "f2", detail := "d" },
          { topic := "f3", detail := "d" }])).finCalls = [3] ∧
    ∃ s', (get_school_intelligence_with_ofsted
        (some { urn := "100", school_name := "Oak" }) [] 0 false 5
        true true true true true
        (.ok (some "Good") none (some "http://r") []
          [{ topic := "o1", detail := "d", source := some "http://a" },
           { topic := "o2", detail := "d", source := some "http://b" }])
        (fun _ => .ok [{ topic := "f1", detail := "d" },
          { topic := "f2", detail := "d" },
          { topic := "f3", detail := "d" }])).result = some s' ∧
      s'.conversation_starters =
        [{ topic := "o1", detail := "d", source := some "http://a" },
         { topic := "o2", detail := "d", source := some "http://b" },
         { topic := "f1", detail := "d" }, { topic := "f2", detail := "d" },
         { topic := "f3", detail := "d" }] :=
  C3_sixty_forty_split.2.2 { urn := "100", school_name := "Oak" } [] 0
    _ _ _ _ _ (some "Good") none (some "http://r") [] _ (by decide) (by decide)
    (by decide) (by decide) (by decide) (by decide) (by decide) (by decide)

/-- With all feature switches on and a successful financial call, the
generation phase is the balanced mix of the two starter pools, cached
under the school's URN. -/
theorem generateWithOfsted_true_eq (school : School) (store : CacheStore)
    (now : ℚ) (n : ℕ) (oe : OfstedCall) (fe : ℕ → FinCall)
    (s2 : List ConversationStarter)
    (hfe : fe (financialNeeded n (ofstedStartersOf oe).length) = .ok s2) :
    generateWithOfsted school store now n true true true true true oe fe =
      { result := some
          { school with
            ofsted := ofstedResultOf oe school.ofsted
            conversation_starters :=
              mixStarters (ofstedStartersOf oe ++ s2) n }
        store := (SimpleCache.set true store now school.urn
            (mixStarters (ofstedStartersOf oe ++ s2) n)).2
        ofstedCalls := 1
        finCalls := [financialNeeded n (ofstedStartersOf oe).length] } := by
  cases oe <;>
    simp_all [generateWithOfsted, mixStarters, ofstedStartersOf,
      ofstedResultOf]

/-- The mixed starter list is non-empty when there is at least one
collected starter and at least one requested position. -/
theorem mixStarters_ne_nil (all : List ConversationStarter) (n : ℕ)
    (hall : all ≠ []) (hn : 1 ≤ n) : mixStarters all n ≠ [] := by
  unfold mixStarters
  obtain ⟨m, rfl⟩ : ∃ m, n = m + 1 := ⟨n - 1, by omega⟩
  rcases hos : all.filter isHttpSourced with _ | ⟨o, os⟩
  · have hfs : all.filter (fun s => !isHttpSourced s) = all := by
      rw [List.filter_eq_self]
      intro a ha
      simp only [Bool.not_eq_true']
      by_contra hc
      simp only [Bool.not_eq_false] at hc
      have hmem : a ∈ all.filter isHttpSourced :=
        List.mem_filter.mpr ⟨ha, hc⟩
      rw [hos] at hmem
      exact absurd hmem (List.not_mem_nil a)
    rw [hfs, balanceGo_nil_left]
    rcases all with _ | ⟨a, t⟩
    · exact absurd rfl hall
    · rw [List.take_succ_cons]
      unfold dedupByTopic
      rw [if_neg (List.not_mem_nil a.topic)]
      simp
  · have hstep : balanceGo (o :: os)
        (all.filter (fun s => !isHttpSourced s)) 0 (m + 1) =
        o :: balanceGo os (all.filter (fun s => !isHttpSourced s)) 1 m := by
      simp [balanceGo]
    rw [hstep]
    unfold dedupByTopic
    rw [if_neg (List.not_mem_nil o.topic)]
    simp

/-- Reading back an entry just written, while it is still fresh. -/
theorem cache_get_after_set (store : CacheStore) (now now' : ℚ)
    (urn : String) (starters : List ConversationStarter)
    (h : ¬ CACHE_TTL_HOURS < now' - now) :
    SimpleCache.get true CACHE_TTL_HOURS
      (SimpleCache.set true store now urn starters).2 now' urn =
      some starters := by
  simp [SimpleCache.get, SimpleCache.set, CacheStore.lookup, List.find?, h]

/-- A fresh non-empty cached list short-circuits the with-Ofsted
orchestrator. -/
theorem with_ofsted_cache_hit (school : School) (store : CacheStore)
    (now : ℚ) (n : ℕ) (oe : OfstedCall) (fe : ℕ → FinCall)
    (c : ConversationStarter) (cs : List ConversationStarter)
    (hget : SimpleCache.get true CACHE_TTL_HOURS store now school.urn =
      some (c :: cs)) :
    get_school_intelligence_with_ofsted (some school) store now false n
      true true true true true oe fe =
      ⟨some { school with conversation_starters := c :: cs }, store, 0, []⟩ := by
  simp [get_school_intelligence_with_ofsted, hget]

/-- C6 amended: with caching enabled, no prior entry, and the second call
within the time-to-live, two invocations issue one generator call each in
total provided generation yields a non-empty list, and the second
invocation returns the cached points; both the plain and the with-Ofsted
variant behave so. -/
theorem C6_cache_single_generation_amended :
    (∀ (school : School) (store : CacheStore) (now now' : ℚ) (n : ℕ)
       (l : List ConversationStarter) (fe : ℕ → FinCall),
      store.lookup school.urn = none →
      fe n = .ok l → l ≠ [] →
      ¬ CACHE_TTL_HOURS < now' - now →
      (get_school_intelligence (some school) store now false n true true
          fe).finCalls.length = 1 ∧
      (get_school_intelligence (some school)
          (get_school_intelligence (some school) store now false n true true
            fe).store now' false n true true fe).finCalls.length = 0 ∧
      ∃ s', (get_school_intelligence (some school)
          (get_school_intelligence (some school) store now false n true true
            fe).store now' false n true true fe).result = some s' ∧
        s'.conversation_starters = l) ∧
    (∀ (school : School) (store : CacheStore) (now now' : ℚ) (n : ℕ)
       (oe : OfstedCall) (fe : ℕ → FinCall),
      store.lookup school.urn = none →
      1 ≤ n →
      (∀ m, ∃ l, fe m = .ok l ∧ l ≠ []) →
      ¬ CACHE_TTL_HOURS < now' - now →
      (get_school_intelligence_with_ofsted (some school) store now false n
          true true true true true oe fe).ofstedCalls = 1 ∧
      (get_school_intelligence_with_ofsted (some school) store now false n
          true true true true true oe fe).finCalls.length = 1 ∧
      (get_school_intelligence_with_ofsted (some school)
          (get_school_intelligence_with_ofsted (some school) store now false n
            true true true true true oe fe).store now' false n
          true true true true true oe fe).ofstedCalls = 0 ∧
      (get_school_intelligence_with_ofsted (some school)
          (get_school_intelligence_with_ofsted (some school) store now false n
            true true true true true oe fe).store now' false n
          true true true true true oe fe).finCalls.length = 0 ∧
      ∃ s', (get_school_intelligence_with_ofsted (some school)
          (get_school_intelligence_with_ofsted (some school) store now false n
            true true true true true oe fe).store now' false n
          true true true true true oe fe).result = some s' ∧
        some s'.conversation_starters =
          (get_school_intelligence_with_ofsted (some school) store now false n
            true true true true true oe fe).result.map
            (fun t => t.conversation_starters)) := by
  constructor
  · intro school store now now' n l fe hlk hfe hlne httl
    have hget1 : SimpleCache.get true CACHE_TTL_HOURS store now school.urn =
        none := by
      unfold SimpleCache.get
      rw [hlk]
      simp
    have h1 : get_school_intelligence (some school) store now false n true
        true fe =
        ⟨some { school with conversation_starters := l },
          (SimpleCache.set true store now school.urn l).2, 0, [n]⟩ := by
      simp [get_school_intelligence, hget1, hfe]
    rw [h1]
    rcases l with _ | ⟨c, cs⟩
    · exact absurd rfl hlne
    · have hget2 := cache_get_after_set store now now' school.urn (c :: cs)
        httl
      have h2 : get_school_intelligence (some school)
          (SimpleCache.set true store now school.urn (c :: cs)).2 now' false n
          true true fe =
          ⟨some { school with conversation_starters := c :: cs },
            (SimpleCache.set true store now school.urn (c :: cs)).2, 0, []⟩ := by
        simp [get_school_intelligence, hget2]
      exact ⟨rfl, by rw [h2] <;> rfl, _, by rw [h2] <;> rfl, rfl⟩
  · intro school store now now' n oe fe hlk hn hFin httl
    obtain ⟨l, hfe, hlne⟩ := hFin (financialNeeded n (ofstedStartersOf oe).length)
    have h1 : get_school_intelligence_with_ofsted (some school) store now
        false n true true true true true oe fe =
        { result := some
            { school with
              ofsted := ofstedResultOf oe school.ofsted
              conversation_starters :=
                mixStarters (ofstedStartersOf oe ++ l) n }
          store := (SimpleCache.set true store now school.urn
              (mixStarters (ofstedStartersOf oe ++ l) n)).2
          ofstedCalls := 1
          finCalls := [financialNeeded n (ofstedStartersOf oe).length] } := by
      rw [with_ofsted_cache_miss school store now n true true true true true
        oe fe hlk]
      exact generateWithOfsted_true_eq school store now n oe fe l hfe
    have happ : ofstedStartersOf oe ++ l ≠ [] := by
      intro h
      exact hlne (List.append_eq_nil.mp h).2
    have hfinal : mixStarters (ofstedStartersOf oe ++ l) n ≠ [] :=
      mixStarters_ne_nil _ _ happ hn
    rw [h1]
    rcases hf : mixStarters (ofstedStartersOf oe ++ l) n with _ | ⟨c, cs⟩
    · exact absurd hf hfinal
    · have hget2 := cache_get_after_set store now now' school.urn (c :: cs)
        httl
      have h2 := with_ofsted_cache_hit school
        (SimpleCache.set true store now school.urn (c :: cs)).2 now' n oe fe
        c cs hget2
      exact ⟨rfl, rfl, by rw [h2] <;> rfl, by rw [h2] <;> rfl,
        { school with conversation_starters := c :: cs },
        by rw [h2] <;> rfl, rfl⟩

/-- Witness for the amended C6 on the plain variant at a concrete school,
generator and clock. -/
theorem C6_cache_single_generation_witness :
    (get_school_intelligence (some { urn := "100", school_name := "Oak" }) []
        0 false 5 true true
        (fun _ => .ok [{ topic := "t", detail := "d" }])).finCalls.length
      = 1 ∧
    (get_school_intelligence (some { urn := "100", school_name := "Oak" })
        (get_school_intelligence (some { urn := "100", school_name := "Oak" })
          [] 0 false 5 true true
          (fun _ => .ok [{ topic := "t", detail := "d" }])).store 1 false 5
        true true
        (fun _ => .ok [{ topic := "t", detail := "d" }])).finCalls.length
      = 0 ∧
    ∃ s', (get_school_intelligence (some { urn := "100", school_name := "Oak" })
        (get_school_intelligence (some { urn := "100", school_name := "Oak" })
          [] 0 false 5 true true
          (fun _ => .ok [{ topic := "t", detail := "d" }])).store 1 false 5
        true true
        (fun _ => .ok [{ topic := "t", detail := "d" }])).result = some s' ∧
      s'.conversation_starters = [{ topic := "t", detail := "d" }] :=
  C6_cache_single_generation_amended.1 { urn := "100", school_name := "Oak" }
    [] 0 1 5 [{ topic := "t", detail := "d" }]
    (fun _ => .ok [{ topic := "t", detail := "d" }]) rfl rfl (by decide)
    (by norm_num [CACHE_TTL_HOURS])

/-- Lookup in the shadow merge: a binding of the contact row wins. -/
theorem mergeRows_get_left (fin gias : Row) (k v : String)
    (h : gias.get k = some v) : (mergeRows fin gias).get k = some v := by
  unfold Row.get at h ⊢
  unfold mergeRows
  rw [List.find?_append]
  rcases hf : gias.find? (fun p => p.1 == k) with _ | p
  · rw [hf] at h
    exact absurd h (by simp)
  · rw [hf] at h
    rw [hf]
    exact h

/-- The first candidate column wins in _get_value when its value is
present, non-empty and not nan. -/
theorem get_value_head (row : Row) (k : String) (ks : List String)
    (v : String) (h : row.get k = some v) (h1 : v ≠ "")
    (h2 : pyLower v ≠ "nan") :
    get_value row (k :: ks) = some (pyStrip v) := by
  unfold get_value
  rw [List.findSome?_cons]
  simp [h, h1, h2]

/-- Python `a or b` keeps a truthy first operand. -/
theorem pyOr_truthy (a b : Option String) (h : truthy a = true) :
    pyOr a b = a := by
  cases a with
  | none => exact absurd h (by simp [truthy])
  | some s =>
    unfold truthy at h
    simp only [ne_eq, decide_eq_true_eq] at h
    simp [pyOr, h]

/-- C2 amended: contact-row bindings shadow financial-row bindings in the
merged map, the merged School's name is the contact feed's stripped
school_name when that value is usable, and the FinancialData sub-object is
built from the financial row for every monetary field, while total_pupils
reads the financial row's TotalPupils when truthy and otherwise falls back
to the merged map's pupil_count. -/
theorem C2_merge_precedence_amended :
    (∀ (fin gias : Row) (k v : String),
      gias.get k = some v → (mergeRows fin gias).get k = some v) ∧
    (∀ (f g : Row) (urn nameA : String) (s : School),
      g.get "school_name" = some nameA → nameA ≠ "" →
      pyLower nameA ≠ "nan" → pyStrip nameA ≠ "" →
      load_merge_one (some f) (some g) urn = .ok s →
      s.school_name = pyStrip nameA) ∧
    (∀ (f g : Row) (urn : String) (s : School),
      f ≠ [] → load_merge_one (some f) (some g) urn = .ok s →
      s.financial = some (build_financial f (mergeRows f g))) ∧
    (∀ (f r r' : Row),
      (build_financial f r).total_expenditure =
        (build_financial f r').total_expenditure ∧
      (build_financial f r).teaching_staff_costs =
        (build_financial f r').teaching_staff_costs ∧
      (build_financial f r).supply_teaching_costs =
        (build_financial f r').supply_teaching_costs ∧
      (build_financial f r).educational_support_costs =
        (build_financial f r').educational_support_costs ∧
      (build_financial f r).agency_supply_costs =
        (build_financial f r').agency_supply_costs ∧
      (build_financial f r).educational_consultancy_costs =
        (build_financial f r').educational_consultancy_costs ∧
      (build_financial f r).total_teaching_support_costs =
        (build_financial f r').total_teaching_support_costs ∧
      (truthy (f.get "TotalPupils") = true →
        (build_financial f r).total_pupils =
          (build_financial f r').total_pupils)) := by
  refine ⟨mergeRows_get_left, ?_, ?_, ?_⟩
  · intro f g urn nameA s hname hne hnan hstrip hok
    rw [load_merge_one_def] at hok
    simp only [Option.getD_some] at hok
    obtain ⟨-, hn⟩ := merged_row_to_school_fields _ _ _ _ hok
    have hget : (mergeRows f g).get "school_name" = some nameA :=
      mergeRows_get_left f g "school_name" nameA hname
    rw [hn, get_value_head (mergeRows f g) "school_name"
      ["SchoolName", "school_name_gias"] nameA hget hne hnan]
    simp [pyOr, hstrip]
  · intro f g urn s hfne hok
    rw [load_merge_one_def] at hok
    simp only [Option.getD_some] at hok
    have hempty : f.isEmpty = false := by
      cases f with
      | nil => exact absurd rfl hfne
      | cons a t => rfl
    rw [hempty] at hok
    obtain ⟨hfin, -⟩ := merged_row_to_school_fields _ _ _ _ hok
    simpa using hfin
  · intro f r r'
    refine ⟨rfl, rfl, rfl, rfl, rfl, rfl, rfl, ?_⟩
    intro ht
    unfold build_financial
    rw [pyOr_truthy _ _ ht, pyOr_truthy _ _ ht]

/-- Witness for the amended C2: the contact feed's name wins over the
financial feed's. -/
theorem C2_merge_precedence_witness :
    ((load_merge_one (some [("SchoolName", "B")])
        (some [("school_name", "A")]) "100").toOption.getD
      { urn := "", school_name := "" }).school_name = pyStrip "A" :=
  C2_merge_precedence_amended.2.1 [("SchoolName", "B")]
    [("school_name", "A")] "100" "A" _ (by decide) (by decide) (by decide)
    (by decide) (by decide)

/-- The head surviving dropWhile falsifies the predicate. -/
theorem dropWhile_head_false {p : Char → Bool} {l t : List Char} {b : Char}
    (h : l.dropWhile p = b :: t) : p b = false := by
  induction l with
  | nil => simp at h
  | cons c cs ih =>
    rw [List.dropWhile_cons] at h
    by_cases hc : p c = true
    · rw [if_pos hc] at h
      exact ih h
    · rw [if_neg hc] at h
      cases h
      exact Bool.not_eq_true _ |>.mp hc

/-- dropWhile is idempotent. -/
theorem dropWhile_idem (p : Char → Bool) (l : List Char) :
    (l.dropWhile p).dropWhile p = l.dropWhile p := by
  rcases h : l.dropWhile p with _ | ⟨b, t⟩
  · rfl
  · rw [List.dropWhile_cons, if_neg]
    rw [dropWhile_head_false h]
    simp

/-- Whitespace stripping is idempotent. -/
theorem stripChars_idem (cs : List Char) :
    stripChars (stripChars cs) = stripChars cs := by
  unfold stripChars
  set A := cs.dropWhile pySpace with hA
  set T := (A.reverse.dropWhile pySpace).reverse with hT
  have hpre : T <+: A := by
    have h0 : T <+: A.reverse.reverse :=
      List.reverse_prefix.mpr (List.dropWhile_suffix pySpace)
    rwa [List.reverse_reverse] at h0
  have hdropT : T.dropWhile pySpace = T := by
    rcases hTc : T with _ | ⟨b, u⟩
    · rfl
    · rw [hTc] at hpre
      obtain ⟨t2, ht2⟩ := hpre
      have hAh : A = b :: (u ++ t2) := by rw [← ht2]; rfl
      have hbf : pySpace b = false := dropWhile_head_false (hA ▸ hAh)
      rw [List.dropWhile_cons, hbf]
      simp
  rw [hdropT, ← List.reverse_reverse T, List.reverse_reverse]
  rw [hT, List.reverse_reverse, dropWhile_idem]

/-- Parsing is insensitive to pre-stripping. -/
theorem pyFloatChars_strip (cs : List Char) :
    pyFloatChars (stripChars cs) = pyFloatChars cs := by
  unfold pyFloatChars
  rw [stripChars_idem]

/-- A finite parse stays below the overflow cutoff. -/
theorem pyFloatCore_finite_bound {cs : List Char} {q : ℚ}
    (h : pyFloatCore cs = some (.finite q)) : |q| < dblOverflow := by
  unfold pyFloatCore at h
  dsimp only at h
  split at h
  · simp at h
  · split at h
    · simp at h
    · rcases hp : parseNumeric (signSplit cs).2 with _ | q0
      · rw [hp] at h
        simp at h
      · rw [hp] at h
        dsimp only at h
        split at h <;> split at h <;>
          first
            | (simp only [Option.some.injEq, PyFloat.finite.injEq] at h
               subst h
               exact lt_of_not_le (by assumption))
            | simp at h

/-- int() of an integer-valued rational is that integer. -/
theorem pyTrunc_intCast (n : ℤ) : pyTrunc ((n : ℤ) : ℚ) = n := by
  unfold pyTrunc
  split
  · exact Int.ceil_intCast n
  · exact Int.floor_intCast n

/-- Truncation toward zero does not grow the magnitude. -/
theorem pyTrunc_abs_le (q : ℚ) : |((pyTrunc q : ℤ) : ℚ)| ≤ |q| := by
  unfold pyTrunc
  split
  · next hq =>
    have h1 : (q : ℚ) ≤ (⌈q⌉ : ℚ) := Int.le_ceil q
    have h2 : (⌈q⌉ : ℚ) ≤ 0 := by
      have := Int.ceil_le.mpr (le_of_lt hq : q ≤ ((0 : ℤ) : ℚ))
      exact_mod_cast this
    rw [abs_of_nonpos h2, abs_of_nonpos (le_of_lt hq)]
    linarith
  · next hq =>
    push_neg at hq
    have h1 : ((⌊q⌋ : ℤ) : ℚ) ≤ q := Int.floor_le q
    have h2 : (0 : ℚ) ≤ (⌊q⌋ : ℚ) := by
      have := Int.floor_nonneg.mpr hq
      exact_mod_cast this
    rw [abs_of_nonneg h2, abs_of_nonneg hq]
    linarith

/-- Digit values below ten round-trip through their character. -/
theorem charVal_digitChar (d : ℕ) (h : d < 10) :
    charVal (digitChar d) = d := by
  interval_cases d <;> rfl

/-- Digit characters are decimal digits. -/
theorem digitB_digitChar (d : ℕ) (h : d < 10) :
    digitB (digitChar d) = true := by
  interval_cases d <;> rfl

/-- Value under a most-significant-first fold of a list with one more
digit appended. -/
theorem natOfDigits_append_digit (l : List Char) (c : Char) :
    natOfDigits (l ++ [c]) = 10 * natOfDigits l + charVal c := by
  unfold natOfDigits
  rw [List.foldl_append]
  rfl

/-- The fuelled digit printer prints m when the fuel covers it. -/
theorem natOfDigits_natCharsGo (fuel m : ℕ) (h : m ≤ fuel) :
    natOfDigits (natCharsGo fuel m) = m := by
  induction fuel generalizing m with
  | zero =>
    interval_cases m
    rfl
  | succ k ih =>
    unfold natCharsGo
    by_cases hm : m = 0
    · rw [if_pos hm, hm]
      rfl
    · rw [if_neg hm]
      rw [natOfDigits_append_digit, ih (m / 10) ?_,
        charVal_digitChar (m % 10) (Nat.mod_lt m (by norm_num)),
        Nat.div_add_mod]
      have := Nat.div_lt_self (Nat.pos_of_ne_zero hm) (by norm_num : 1 < 10)
      omega

/-- Every character the digit printer emits is a digit. -/
theorem allDigits_natCharsGo (fuel m : ℕ) :
    allDigits (natCharsGo fuel m) = true := by
  induction fuel generalizing m with
  | zero => rfl
  | succ k ih =>
    unfold natCharsGo
    by_cases hm : m = 0
    · rw [if_pos hm]
      rfl
    · rw [if_neg hm]
      unfold allDigits at ih ⊢
      rw [List.all_append]
      rw [ih (m / 10)]
      simp [digitB_digitChar (m % 10) (Nat.mod_lt m (by norm_num))]

/-- natChars prints its argument. -/
theorem natOfDigits_natChars (m : ℕ) : natOfDigits (natChars m) = m := by
  unfold natChars
  by_cases hm : m = 0
  · rw [if_pos hm, hm]
    rfl
  · rw [if_neg hm]
    exact natOfDigits_natCharsGo m m le_rfl

/-- natChars emits only digits. -/
theorem allDigits_natChars (m : ℕ) : allDigits (natChars m) = true := by
  unfold natChars
  by_cases hm : m = 0
  · rw [if_pos hm]
    rfl
  · rw [if_neg hm]
    exact allDigits_natCharsGo m m

/-- natChars is never empty. -/
theorem natChars_ne_nil (m : ℕ) : natChars m ≠ [] := by
  unfold natChars
  by_cases hm : m = 0
  · rw [if_pos hm]
    simp
  · rw [if_neg hm]
    rcases m with _ | k
    · exact absurd rfl hm
    · simp [natCharsGo, hm]

/-- Numeric bounds of a digit character. -/
theorem digit_toNat (c : Char) (h : digitB c = true) :
    48 ≤ c.toNat ∧ c.toNat ≤ 57 := by
  unfold digitB at h
  simp only [Bool.and_eq_true, decide_eq_true_eq] at h
  exact h

/-- A digit character differs from any character outside the digit range. -/
theorem digit_ne (c x : Char) (h : digitB c = true)
    (hx : x.toNat < 48 ∨ 57 < x.toNat) : c ≠ x := by
  intro he
  obtain ⟨h1, h2⟩ := digit_toNat c h
  subst he
  omega

/-- Digit characters are not whitespace. -/
theorem digit_not_space (c : Char) (h : digitB c = true) :
    pySpace c = false := by
  obtain ⟨h1, h2⟩ := digit_toNat c h
  unfold pySpace
  simp only [Bool.or_eq_false_iff, beq_eq_false_iff_ne, ne_eq]
  refine ⟨⟨⟨⟨⟨?_, ?_⟩, ?_⟩, ?_⟩, ?_⟩, ?_⟩ <;>
    first
      | omega
      | (intro he; subst he; exact absurd h1 (by decide))
      | (intro he; subst he; exact absurd h2 (by decide))

/-- The minus sign is not whitespace. -/
theorem minus_not_space : pySpace '-' = false := by decide

/-- Lowercasing leaves a digit character unchanged. -/
theorem lowerChar_digit (c : Char) (h : digitB c = true) :
    lowerChar c = c := by
  obtain ⟨h1, h2⟩ := digit_toNat c h
  unfold lowerChar
  rw [if_neg]
  intro hc
  omega

/-- A lowercased all-digit list never starts with a letter. -/
theorem lowerChars_digits_ne (cs : List Char) (h : allDigits cs = true)
    (x : Char) (hx : x.toNat < 48 ∨ 57 < x.toNat) (r : List Char) :
    lowerChars cs ≠ x :: r := by
  cases cs with
  | nil => simp [lowerChars]
  | cons c t =>
    unfold allDigits at h
    rw [List.all_cons, Bool.and_eq_true] at h
    intro he
    unfold lowerChars at he
    rw [List.map_cons] at he
    have hc : lowerChar c = x := (List.cons.injEq _ _ _ _ ▸ he).1
    rw [lowerChar_digit c h.1] at hc
    exact digit_ne c x h.1 hx hc

/-- Lists with no matching character pass breakAt whole. -/
theorem breakAt_none (p : Char → Bool) (l : List Char)
    (h : ∀ c ∈ l, p c = false) : breakAt p l = (l, []) := by
  induction l with
  | nil => rfl
  | cons c t ih =>
    unfold breakAt
    rw [h c (List.mem_cons_self c t)]
    simp only [Bool.false_eq_true, if_false]
    rw [ih (fun d hd => h d (List.mem_cons_of_mem c hd))]

/-- Lists of non-whitespace characters pass stripping whole. -/
theorem dropWhile_all_false (p : Char → Bool) (l : List Char)
    (h : ∀ c ∈ l, p c = false) : l.dropWhile p = l := by
  cases l with
  | nil => rfl
  | cons c t =>
    rw [List.dropWhile_cons, h c (List.mem_cons_self c t)]
    simp

/-- Stripping is the identity on lists without whitespace. -/
theorem stripChars_all_nonspace (cs : List Char)
    (h : ∀ c ∈ cs, pySpace c = false) : stripChars cs = cs := by
  unfold stripChars
  rw [dropWhile_all_false pySpace cs h,
    dropWhile_all_false pySpace cs.reverse
      (fun c hc => h c (List.mem_reverse.mp hc)),
    List.reverse_reverse]

/-- The mantissa of a digit string is its decimal value. -/
theorem parseMantissa_natChars (m : ℕ) :
    parseMantissa (natChars m) = some ((m : ℕ) : ℚ) := by
  unfold parseMantissa
  rw [breakAt_none _ _ ?digits]
  case digits =>
    intro c hc
    have hcd : digitB c = true := by
      have := allDigits_natChars m
      unfold allDigits at this
      rw [List.all_eq_true] at this
      exact this c hc
    simp only [beq_eq_false_iff_ne, ne_eq]
    exact digit_ne c '.' hcd (by decide)
  simp only []
  rw [if_pos ⟨natChars_ne_nil m, allDigits_natChars m⟩,
    natOfDigits_natChars]

/-- The numeric literal of a digit string is its decimal value. -/
theorem parseNumeric_natChars (m : ℕ) :
    parseNumeric (natChars m) = some ((m : ℕ) : ℚ) := by
  unfold parseNumeric
  rw [breakAt_none _ _ ?noexp]
  case noexp =>
    intro c hc
    have hcd : digitB c = true := by
      have := allDigits_natChars m
      unfold allDigits at this
      rw [List.all_eq_true] at this
      exact this c hc
    simp only [Bool.or_eq_false_iff, beq_eq_false_iff_ne, ne_eq]
    exact ⟨digit_ne c 'e' hcd (by decide), digit_ne c 'E' hcd (by decide)⟩
  exact parseMantissa_natChars m

/-- The sign splitter passes a digit-headed list through. -/
theorem signSplit_natChars (m : ℕ) :
    signSplit (natChars m) = (false, natChars m) := by
  rcases hc : natChars m with _ | ⟨c, t⟩
  · exact absurd hc (natChars_ne_nil m)
  · have hcd : digitB c = true := by
      have := allDigits_natChars m
      rw [hc] at this
      unfold allDigits at this
      rw [List.all_cons, Bool.and_eq_true] at this
      exact this.1
    have hd : signSplit (c :: t) =
        if c = '+' then (false, t)
        else if c = '-' then (true, t) else (false, c :: t) := rfl
    rw [hd, if_neg (digit_ne c '+' hcd (by decide)),
      if_neg (digit_ne c '-' hcd (by decide))]

/-- Parsing the decimal print of an integer below the overflow cutoff
recovers exactly that integer. -/
theorem pyFloatChars_intChars (n : ℤ) (h : |((n : ℤ) : ℚ)| < dblOverflow) :
    pyFloatChars (intChars n) = some (.finite ((n : ℤ) : ℚ)) := by
  have hdig : ∀ c ∈ natChars n.natAbs, pySpace c = false := by
    intro c hc
    have := allDigits_natChars n.natAbs
    unfold allDigits at this
    rw [List.all_eq_true] at this
    exact digit_not_space c (this c hc)
  have hnotnan := lowerChars_digits_ne (natChars n.natAbs)
    (allDigits_natChars n.natAbs) 'n' (by decide)
  have hnotinf := lowerChars_digits_ne (natChars n.natAbs)
    (allDigits_natChars n.natAbs) 'i' (by decide)
  have habs : ((n.natAbs : ℕ) : ℚ) = |((n : ℤ) : ℚ)| := by
    push_cast [Int.cast_natAbs]
    rfl
  unfold pyFloatChars pyFloatCore
  by_cases hn : n < 0
  · have hi : intChars n = '-' :: natChars n.natAbs := by
      unfold intChars
      rw [if_pos hn]
    rw [hi, stripChars_all_nonspace _ ?nospace]
    case nospace =>
      intro c hc
      rcases List.mem_cons.mp hc with hc1 | hc2
      · rw [hc1]
        exact minus_not_space
      · exact hdig c hc2
    have hsign : signSplit ('-' :: natChars n.natAbs) =
        (true, natChars n.natAbs) := rfl
    rw [hsign]
    dsimp only
    rw [if_neg (hnotnan _), if_neg ?notinf]
    case notinf =>
      rintro (h1 | h2)
      · exact hnotinf _ h1
      · exact hnotinf _ h2
    rw [parseNumeric_natChars]
    dsimp only
    have hq : -((n.natAbs : ℕ) : ℚ) = ((n : ℤ) : ℚ) := by
      rw [habs, abs_of_neg (by exact_mod_cast hn)]
      ring
    have hcond : (if (true : Bool) = true then -((n.natAbs : ℕ) : ℚ)
        else ((n.natAbs : ℕ) : ℚ)) = ((n : ℤ) : ℚ) := by
      rw [if_pos rfl]
      exact hq
    rw [hcond, if_neg (not_le.mpr h)]
  · have hi : intChars n = natChars n.natAbs := by
      unfold intChars
      rw [if_neg hn]
    rw [hi, stripChars_all_nonspace _ hdig, signSplit_natChars]
    dsimp only
    rw [if_neg (hnotnan _), if_neg ?notinf2]
    case notinf2 =>
      rintro (h1 | h2)
      · exact hnotinf _ h1
      · exact hnotinf _ h2
    rw [parseNumeric_natChars]
    dsimp only
    have hq : ((n.natAbs : ℕ) : ℚ) = ((n : ℤ) : ℚ) := by
      rw [habs, abs_of_nonneg (by push_neg at hn; exact_mod_cast hn)]
    have hcond : (if (false : Bool) = true then -((n.natAbs : ℕ) : ℚ)
        else ((n.natAbs : ℕ) : ℚ)) = ((n : ℤ) : ℚ) := by
      rw [if_neg (by simp)]
      exact hq
    rw [hcond, if_neg (not_le.mpr h)]

/-- Unfolding of _clean_urn on a present value. -/
theorem clean_urn_some (s : String) :
    clean_urn (some s) =
      (if s = "" ∨ pyLower s = "nan" then .ok none
       else
         match pyFloatOf s with
         | some (.finite q) => .ok (some (intStr (pyTrunc q)))
         | some .nan => .ok (some (pyStrip s))
         | some (.inf _) => .error .overflowError
         | none => .ok (some (pyStrip s))) := rfl

/-- C7 amended: _clean_urn is idempotent on every returned value that is
non-empty and not the text nan up to case, and "123.0", "123" and " 123 "
all normalize to "123". -/
theorem C7_clean_urn_idempotent_amended :
    (∀ s r : String, clean_urn (some s) = .ok (some r) → r ≠ "" →
      pyLower r ≠ "nan" → clean_urn (some r) = .ok (some r)) ∧
    clean_urn (some "123.0") = .ok (some "123") ∧
    clean_urn (some "123") = .ok (some "123") ∧
    clean_urn (some " 123 ") = .ok (some "123") := by
  refine ⟨?_, by decide, by decide, by decide⟩
  intro s r h hr1 hr2
  have hguard_r : ¬(r = "" ∨ pyLower r = "nan") := by
    rintro (h1 | h2)
    exacts [hr1 h1, hr2 h2]
  rw [clean_urn_some] at h
  rw [clean_urn_some, if_neg hguard_r]
  split at h
  · exact absurd h (by simp)
  · rcases hp : pyFloatOf s with _ | f
    · rw [hp] at h
      dsimp only at h
      simp only [Except.ok.injEq, Option.some.injEq] at h
      subst h
      have hdata : (pyStrip s).data = stripChars s.data := rfl
      have hparse : pyFloatOf (pyStrip s) = none := by
        show pyFloatChars (pyStrip s).data = none
        rw [hdata]
        rw [pyFloatChars_strip]
        exact hp
      rw [hparse]
      dsimp only
      have hstrip2 : pyStrip (pyStrip s) = pyStrip s := by
        show (stripChars (pyStrip s).data).asString = pyStrip s
        rw [hdata, stripChars_idem]
        rfl
      rw [hstrip2]
    · cases f with
      | nan =>
        rw [hp] at h
        dsimp only at h
        simp only [Except.ok.injEq, Option.some.injEq] at h
        subst h
        have hdata : (pyStrip s).data = stripChars s.data := rfl
        have hparse : pyFloatOf (pyStrip s) = some .nan := by
          show pyFloatChars (pyStrip s).data = some .nan
          rw [hdata, pyFloatChars_strip]
          exact hp
        rw [hparse]
        dsimp only
        have hstrip2 : pyStrip (pyStrip s) = pyStrip s := by
          show (stripChars (pyStrip s).data).asString = pyStrip s
          rw [hdata, stripChars_idem]
          rfl
        rw [hstrip2]
      | inf b =>
        rw [hp] at h
        dsimp only at h
        exact absurd h (by simp)
      | finite q =>
        rw [hp] at h
        dsimp only at h
        simp only [Except.ok.injEq, Option.some.injEq] at h
        subst h
        have hbound : |q| < dblOverflow :=
          pyFloatCore_finite_bound (show pyFloatCore (stripChars s.data) =
            some (.finite q) from hp)
        have hb2 : |((pyTrunc q : ℤ) : ℚ)| < dblOverflow :=
          lt_of_le_of_lt (pyTrunc_abs_le q) hbound
        have hdata : (intStr (pyTrunc q)).data = intChars (pyTrunc q) := rfl
        have hparse : pyFloatOf (intStr (pyTrunc q)) =
            some (.finite ((pyTrunc q : ℤ) : ℚ)) := by
          show pyFloatChars (intStr (pyTrunc q)).data =
            some (.finite ((pyTrunc q : ℤ) : ℚ))
          rw [hdata]
          exact pyFloatChars_intChars (pyTrunc q) hb2
        rw [hparse]
        dsimp only
        rw [pyTrunc_intCast]

/-- Witness for the amended C7 at "00123", whose returned value "123" is
re-normalized to itself. -/
theorem C7_clean_urn_idempotent_witness :
    clean_urn (some "123") = .ok (some "123") :=
  C7_clean_urn_idempotent_amended.1 "00123" "123" (by decide) (by decide)
    (by decide)
